import Mathlib

/-!
The p2pd daemon (`go-libp2p-daemon/daemon.go`).

A shallow embedding of `NewDaemon`, `Daemon.EnableDHT`, `Daemon.EnablePubsub`
and `Daemon.listen`.

The daemon talks to several libraries (libp2p host construction, the
multiaddr listener, the Kademlia DHT, pubsub, the routed host wrapper, the
logger).  Their code is not part of `daemon.go`; they are taken as a record of
functions `Lib` over an explicit world state, so every statement below holds for
every behaviour of those libraries.  Each function of the embedding returns,
next to its Go results, the list of library calls it made, in program order.
-/

namespace P2pd

/-! ## Data model -/

/-- The types the daemon only holds references to. -/
structure Types where
  World : Type
  Ctx : Type
  Host : Type
  Listener : Type
  Conn : Type
  DHT : Type
  PubSub : Type
  Maddr : Type
  HostOpt : Type
  Err : Type

/-- The `dhtopts.Option` values `EnableDHT` builds: `dhtopts.Client(b)`. -/
inductive DhtOption where
  | Client (b : Bool)
  deriving DecidableEq, Repr

/-- The `ps.Option` values `EnablePubsub` builds: `ps.WithMessageSigning(b)` and
`ps.WithStrictSignatureVerification(b)`. -/
inductive PsOption where
  | WithMessageSigning (b : Bool)
  | WithStrictSignatureVerification (b : Bool)
  deriving DecidableEq, Repr

/-- A Go `error` value as `daemon.go` sees it: one handed back by a library, or
one built by `fmt.Errorf` with the formatted message. -/
inductive GoError (T : Types) where
  | lib (e : T.Err)
  | errorf (msg : String)

/-- The `Daemon` struct: `ctx`, `host`, `listener`, the two optional subsystem
pointers `dht` and `pubsub` (`none` is Go's nil) and the `handlers` map from
protocol id to multiaddress.  The mutex `mx` guards `handlers` in other files
and is not touched by the functions embedded here. -/
structure Daemon (T : Types) where
  ctx : T.Ctx
  host : T.Host
  listener : T.Listener
  dht : Option T.DHT
  pubsub : Option T.PubSub
  handlers : List (String × T.Maddr)

/-- One library call (or `go` statement) made by `daemon.go`, with its arguments. -/
inductive Call (T : Types) where
  | libp2pNew (ctx : T.Ctx) (opts : List T.HostOpt)
  | manetListen (maddr : T.Maddr)
  | hostClose (h : T.Host)
  | goListen (l : T.Listener)
  | dhtNew (ctx : T.Ctx) (h : T.Host) (opts : List DhtOption)
  | rhostWrap (h : T.Host) (dht : T.DHT)
  | newFloodSub (ctx : T.Ctx) (h : T.Host) (opts : List PsOption)
  | newGossipSub (ctx : T.Ctx) (h : T.Host) (opts : List PsOption)
  | accept (l : T.Listener)
  | logErrorf (msg : String)
  | logDebug (msg : String)
  | goHandleConn (c : Option T.Conn)

/-- The libraries `daemon.go` calls, as state transformers on the world.
A Go call returning `(value, error)` whose value is used only when the error is
nil returns an `Except`; `Accept` returns the pair itself, because `listen`
uses the connection whatever the error is.  `goHandleConn` is the effect of the
statement `go d.handleConn(c)` (the handler lives in another file). -/
structure Lib (T : Types) where
  libp2pNew : T.Ctx → List T.HostOpt → T.World → Except T.Err T.Host × T.World
  manetListen : T.Maddr → T.World → Except T.Err T.Listener × T.World
  hostClose : T.Host → T.World → T.World
  goListen : T.Listener → T.World → T.World
  dhtNew : T.Ctx → T.Host → List DhtOption → T.World → Except T.Err T.DHT × T.World
  rhostWrap : T.Host → T.DHT → T.World → T.Host × T.World
  newFloodSub : T.Ctx → T.Host → List PsOption → T.World → Except T.Err T.PubSub × T.World
  newGossipSub : T.Ctx → T.Host → List PsOption → T.World → Except T.Err T.PubSub × T.World
  accept : T.Listener → T.World → (Option T.Conn × Option T.Err) × T.World
  errError : T.Err → String
  logErrorf : String → T.World → T.World
  logDebug : String → T.World → T.World
  goHandleConn : Option T.Conn → T.World → T.World

/-- What a method of `*Daemon` returning `error` leaves behind: the returned
error (`none` is nil), the daemon after the call, the world after the call and
the library calls made. -/
structure Res (T : Types) where
  err : Option (GoError T)
  d : Daemon T
  world : T.World
  calls : List (Call T)

/-- What `NewDaemon` leaves behind: the returned pair `(*Daemon, error)`, the
world and the library calls made. -/
structure NewRes (T : Types) where
  daemon : Option (Daemon T)
  err : Option (GoError T)
  world : T.World
  calls : List (Call T)

/-! ## `NewDaemon` -/

/-- The function `NewDaemon(ctx, maddr, opts...)`: build the host, bind the listener
(closing the host when that fails), assemble the daemon with an empty handler
map and start the acceptor. -/
def NewDaemon {T : Types} (L : Lib T) (ctx : T.Ctx) (maddr : T.Maddr)
    (opts : List T.HostOpt) (w : T.World) : NewRes T :=
  match L.libp2pNew ctx opts w with
  | (.error err, w1) =>
      ⟨none, some (.lib err), w1, [.libp2pNew ctx opts]⟩
  | (.ok h, w1) =>
      match L.manetListen maddr w1 with
      | (.error err, w2) =>
          ⟨none, some (.lib err), L.hostClose h w2,
            [.libp2pNew ctx opts, .manetListen maddr, .hostClose h]⟩
      | (.ok l, w2) =>
          ⟨some ⟨ctx, h, l, none, none, []⟩, none, L.goListen l w2,
            [.libp2pNew ctx opts, .manetListen maddr, .goListen l]⟩

/-! ## `EnableDHT` -/

/-- The `opts` slice of `EnableDHT`: empty, with `dhtopts.Client(true)` appended
when `client` holds. -/
def dhtOpts (client : Bool) : List DhtOption :=
  let opts : List DhtOption := []
  if client then opts ++ [.Client true] else opts

/-- The method `(d *Daemon) EnableDHT(client)`: build the DHT on `d.host`; on
success assign `d.dht` and then `d.host = rhost.Wrap(d.host, d.dht)`. -/
def EnableDHT {T : Types} (L : Lib T) (client : Bool) (d : Daemon T) (w : T.World) : Res T :=
  let opts := dhtOpts client
  match L.dhtNew d.ctx d.host opts w with
  | (.error err, w1) =>
      ⟨some (.lib err), d, w1, [.dhtNew d.ctx d.host opts]⟩
  | (.ok dht, w1) =>
      let d1 : Daemon T := { d with dht := some dht }
      let r := L.rhostWrap d1.host dht w1
      ⟨none, { d1 with host := r.1 }, r.2,
        [.dhtNew d.ctx d.host opts, .rhostWrap d1.host dht]⟩

/-! ## `EnablePubsub` -/

/-- The `opts` slice of `EnablePubsub`: message signing is appended when `sign`
holds, and strict verification after it when `strict` holds too. -/
def pubsubOpts (sign strict : Bool) : List PsOption :=
  let opts : List PsOption := []
  if sign then
    let opts := opts ++ [.WithMessageSigning sign]
    if strict then opts ++ [.WithStrictSignatureVerification strict] else opts
  else opts

/-- The method `(d *Daemon) EnablePubsub(router, sign, strict)`: the `switch` on
`router` with its cases `"floodsub"`, `"gossipsub"` and `default`. -/
def EnablePubsub {T : Types} (L : Lib T) (router : String) (sign strict : Bool)
    (d : Daemon T) (w : T.World) : Res T :=
  let opts := pubsubOpts sign strict
  if router = "floodsub" then
    match L.newFloodSub d.ctx d.host opts w with
    | (.error err, w1) => ⟨some (.lib err), d, w1, [.newFloodSub d.ctx d.host opts]⟩
    | (.ok pubsub, w1) =>
        ⟨none, { d with pubsub := some pubsub }, w1, [.newFloodSub d.ctx d.host opts]⟩
  else if router = "gossipsub" then
    match L.newGossipSub d.ctx d.host opts w with
    | (.error err, w1) => ⟨some (.lib err), d, w1, [.newGossipSub d.ctx d.host opts]⟩
    | (.ok pubsub, w1) =>
        ⟨none, { d with pubsub := some pubsub }, w1, [.newGossipSub d.ctx d.host opts]⟩
  else
    ⟨some (.errorf ("unknown pubsub router: " ++ router)), d, w, []⟩

/-! ## `listen` -/

/-- One pass through the body of the `for` loop of `(d *Daemon) listen()`:
`Accept`, the `if err != nil` log, the debug log and `go d.handleConn(c)`.
The body has no `break`, `continue` or `return`. -/
def listenBody {T : Types} (L : Lib T) (d : Daemon T) (w : T.World) :
    T.World × List (Call T) :=
  let r := L.accept d.listener w
  let c := r.1.1
  let err := r.1.2
  let w1 := r.2
  let logged : T.World × List (Call T) :=
    match err with
    | some e =>
        let msg := "error accepting connection: " ++ L.errError e
        (L.logErrorf msg w1, [.logErrorf msg])
    | none => (w1, [])
  let w2 := L.logDebug "incoming connection" logged.1
  let w3 := L.goHandleConn c w2
  (w3, [.accept d.listener] ++ logged.2 ++ [.logDebug "incoming connection", .goHandleConn c])

/-- The first `n` iterations of the unbounded `for` loop of `listen`. -/
def listen {T : Types} (L : Lib T) (d : Daemon T) : Nat → T.World → T.World × List (Call T)
  | 0, w => (w, [])
  | n + 1, w =>
      let r := listenBody L d w
      let rest := listen L d n r.1
      (rest.1, r.2 ++ rest.2)

/-! ## Reading results -/

/-- The message of a Go error, `err.Error()`. -/
def GoError.Error {T : Types} (L : Lib T) : GoError T → String
  | .lib e => L.errError e
  | .errorf msg => msg

/-- The call is `h.Close()`. -/
def Call.isHostClose {T : Types} : Call T → Bool
  | .hostClose _ => true
  | _ => false

/-- The call is `manet.Listen`. -/
def Call.isManetListen {T : Types} : Call T → Bool
  | .manetListen _ => true
  | _ => false

/-- The call is `go d.listen()`. -/
def Call.isGoListen {T : Types} : Call T → Bool
  | .goListen _ => true
  | _ => false

/-- The call is the DHT constructor `dht.New`. -/
def Call.isDhtNew {T : Types} : Call T → Bool
  | .dhtNew _ _ _ => true
  | _ => false

/-- The call is one of the pubsub constructors `ps.NewFloodSub`, `ps.NewGossipSub`. -/
def Call.isPubsubNew {T : Types} : Call T → Bool
  | .newFloodSub _ _ _ => true
  | .newGossipSub _ _ _ => true
  | _ => false

/-- The call is `d.listener.Accept()`. -/
def Call.isAccept {T : Types} : Call T → Bool
  | .accept _ => true
  | _ => false

/-- The call is `go d.handleConn(c)`. -/
def Call.isGoHandleConn {T : Types} : Call T → Bool
  | .goHandleConn _ => true
  | _ => false

/-! ## Sequences of enable calls -/

/-- One enable call issued on a daemon. -/
inductive Cmd where
  | enableDHT (client : Bool)
  | enablePubsub (router : String) (sign strict : Bool)

/-- The command is an `EnableDHT` call. -/
def Cmd.isDHT : Cmd → Bool
  | .enableDHT _ => true
  | _ => false

/-- The command is an `EnablePubsub` call whose router is one of the two names
the `switch` of `EnablePubsub` has a case for. -/
def Cmd.isKnownPubsub : Cmd → Bool
  | .enablePubsub router _ _ => decide (router = "floodsub") || decide (router = "gossipsub")
  | _ => false

/-- Run one enable call. -/
def runCmd {T : Types} (L : Lib T) (c : Cmd) (d : Daemon T) (w : T.World) : Res T :=
  match c with
  | .enableDHT client => EnableDHT L client d w
  | .enablePubsub router sign strict => EnablePubsub L router sign strict d w

/-- Run a sequence of enable calls one after the other on the same daemon,
whatever each returns; the result carries the last error-free or failing call's
error and the calls of the whole sequence. -/
def runCmds {T : Types} (L : Lib T) : List Cmd → Daemon T → T.World → Res T
  | [], d, w => ⟨none, d, w, []⟩
  | c :: cs, d, w =>
      let r := runCmd L c d w
      let rest := runCmds L cs r.d r.world
      ⟨rest.err, rest.d, rest.world, r.calls ++ rest.calls⟩

/-! ## A scripted library for concrete runs -/

/-- Every reference is a natural number; the world is a counter that hands out
the next fresh handle. -/
abbrev natTypes : Types := ⟨Nat, Nat, Nat, Nat, Nat, Nat, Nat, Nat, Nat, Nat⟩

/-- Which library calls fail in a scripted run. -/
structure Faults where
  host : Bool
  bind : Bool
  dht : Bool
  flood : Bool
  gossip : Bool
  accept : Bool

/-- No call fails. -/
def noFaults : Faults := ⟨false, false, false, false, false, false⟩

/-- A library whose constructors return the world counter as the fresh handle
(or as the error, when the fault is switched on) and advance it by one. -/
def scriptLib (f : Faults) : Lib natTypes where
  libp2pNew := fun _ _ w => (if f.host then .error w else .ok w, w + 1)
  manetListen := fun _ w => (if f.bind then .error w else .ok w, w + 1)
  hostClose := fun _ w => w + 1
  goListen := fun _ w => w
  dhtNew := fun _ _ _ w => (if f.dht then .error w else .ok w, w + 1)
  rhostWrap := fun _ _ w => (w, w + 1)
  newFloodSub := fun _ _ _ w => (if f.flood then .error w else .ok w, w + 1)
  newGossipSub := fun _ _ _ w => (if f.gossip then .error w else .ok w, w + 1)
  accept := fun _ w => (if f.accept then (none, some w) else (some w, none), w + 1)
  errError := fun e => "E" ++ toString e
  logErrorf := fun _ w => w
  logDebug := fun _ w => w
  goHandleConn := fun _ w => w

/-- A freshly constructed daemon: context 0, host 1, listener 2, nothing enabled. -/
def daemon0 : Daemon natTypes := ⟨0, 1, 2, none, none, []⟩

/-- A daemon whose DHT (handle 3) and pubsub (handle 4) are both already set. -/
def daemonSet : Daemon natTypes := ⟨0, 1, 2, some 3, some 4, []⟩

/-- A library whose pubsub constructors refuse to build an engine unless they are
handed the message-signing option, and otherwise return the world counter plus
the number of options they received; the rest is `scriptLib noFaults`. -/
def signedOnlyLib : Lib natTypes where
  libp2pNew := (scriptLib noFaults).libp2pNew
  manetListen := (scriptLib noFaults).manetListen
  hostClose := (scriptLib noFaults).hostClose
  goListen := (scriptLib noFaults).goListen
  dhtNew := (scriptLib noFaults).dhtNew
  rhostWrap := (scriptLib noFaults).rhostWrap
  newFloodSub := fun _ _ opts w =>
    (if PsOption.WithMessageSigning true ∈ opts then .ok (w + opts.length) else .error w, w + 1)
  newGossipSub := fun _ _ opts w =>
    (if PsOption.WithMessageSigning true ∈ opts then .ok (w + opts.length) else .error w, w + 1)
  accept := (scriptLib noFaults).accept
  errError := (scriptLib noFaults).errError
  logErrorf := (scriptLib noFaults).logErrorf
  logDebug := (scriptLib noFaults).logDebug
  goHandleConn := (scriptLib noFaults).goHandleConn

/-- A library whose every `Accept` fails with the world counter as the error, and
in which each call of the loop leaves its mark on the world: `Accept` adds 1,
`log.Errorf` adds 100, `log.Debug` adds 10, spawning the handler adds 1000 for a
nil connection and 2000 otherwise; the rest is `scriptLib noFaults`. -/
def failingAcceptLib : Lib natTypes where
  libp2pNew := (scriptLib noFaults).libp2pNew
  manetListen := (scriptLib noFaults).manetListen
  hostClose := (scriptLib noFaults).hostClose
  goListen := (scriptLib noFaults).goListen
  dhtNew := (scriptLib noFaults).dhtNew
  rhostWrap := (scriptLib noFaults).rhostWrap
  newFloodSub := (scriptLib noFaults).newFloodSub
  newGossipSub := (scriptLib noFaults).newGossipSub
  accept := fun _ w => ((none, some w), w + 1)
  errError := fun e => "E" ++ toString e
  logErrorf := fun _ w => w + 100
  logDebug := fun _ w => w + 10
  goHandleConn := fun c w => if c.isSome then w + 2000 else w + 1000

end P2pd

namespace P2pd

/-! ## Unknown routers (C1) and the router names (C2) -/

/-- C1: for every router string other than the two names the `switch` has a case
for, and every `sign` and `strict`, `EnablePubsub` returns the error built by
`fmt.Errorf("unknown pubsub router: %s", router)`, whose message is that text
followed by the router string, makes no library call at all (so no pubsub
constructor runs) and returns the daemon, its `pubsub` field included, and the
world as they were. -/
theorem EnablePubsub_unknown_router {T : Types} (L : Lib T) (router : String)
    (sign strict : Bool) (d : Daemon T) (w : T.World)
    (hf : router ≠ "floodsub") (hg : router ≠ "gossipsub") :
    (EnablePubsub L router sign strict d w).err
        = some (.errorf ("unknown pubsub router: " ++ router)) ∧
    (EnablePubsub L router sign strict d w).err.map (GoError.Error L)
        = some ("unknown pubsub router: " ++ router) ∧
    (EnablePubsub L router sign strict d w).calls = [] ∧
    (EnablePubsub L router sign strict d w).d.pubsub = d.pubsub ∧
    (EnablePubsub L router sign strict d w).d = d ∧
    (EnablePubsub L router sign strict d w).world = w := by
  simp [EnablePubsub, hf, hg, GoError.Error]

/-- The router of the spec's example, on a daemon with nothing enabled. -/
theorem EnablePubsub_unknown_router_witness :
    "unknown-router" ≠ "floodsub" ∧ "unknown-router" ≠ "gossipsub" ∧
    (EnablePubsub (scriptLib noFaults) "unknown-router" false false daemon0 10).err
        = some (.errorf "unknown pubsub router: unknown-router") ∧
    (EnablePubsub (scriptLib noFaults) "unknown-router" false false daemon0 10).calls = [] ∧
    (EnablePubsub (scriptLib noFaults) "unknown-router" false false daemon0 10).d.pubsub
        = none :=
  have h := EnablePubsub_unknown_router (scriptLib noFaults) "unknown-router" false false
    daemon0 10 (by decide) (by decide)
  ⟨by decide, by decide, h.1, h.2.2.1, h.2.2.2.1⟩

/-- C2, as stated, fails: with router `"flood"`, `sign = true`, `strict = true`
and a flood constructor that succeeds (it would return engine 10),
`EnablePubsub` returns the unknown-router error, calls no constructor and
stores nothing. -/
theorem EnablePubsub_flood_is_unknown :
    ((scriptLib noFaults).newFloodSub daemon0.ctx daemon0.host (pubsubOpts true true) 10).1
        = .ok 10 ∧
    (EnablePubsub (scriptLib noFaults) "flood" true true daemon0 10).err
        = some (.errorf "unknown pubsub router: flood") ∧
    (EnablePubsub (scriptLib noFaults) "flood" true true daemon0 10).calls = [] ∧
    (EnablePubsub (scriptLib noFaults) "flood" true true daemon0 10).d.pubsub = none :=
  ⟨rfl, rfl, rfl, rfl⟩

/-- C2, amended: for router `"floodsub"`, `sign = true`, `strict = true` and a
flood constructor that returns an engine, `EnablePubsub` returns no error and
stores that engine in the daemon; the constructor was called once, on the
daemon's context and host, with signing and strict verification. -/
theorem EnablePubsub_floodsub_signed_strict {T : Types} (L : Lib T) (d : Daemon T)
    (w w1 : T.World) (p : T.PubSub)
    (h : L.newFloodSub d.ctx d.host
      [.WithMessageSigning true, .WithStrictSignatureVerification true] w = (.ok p, w1)) :
    (EnablePubsub L "floodsub" true true d w).err = none ∧
    (EnablePubsub L "floodsub" true true d w).d.pubsub = some p ∧
    (EnablePubsub L "floodsub" true true d w).calls
        = [.newFloodSub d.ctx d.host
            [.WithMessageSigning true, .WithStrictSignatureVerification true]] := by
  simp [EnablePubsub, pubsubOpts, h]

/-- The flood router on the scripted library: engine 10 is stored. -/
theorem EnablePubsub_floodsub_signed_strict_witness :
    (scriptLib noFaults).newFloodSub daemon0.ctx daemon0.host
      [.WithMessageSigning true, .WithStrictSignatureVerification true] 10 = (.ok 10, 11) ∧
    (EnablePubsub (scriptLib noFaults) "floodsub" true true daemon0 10).err = none ∧
    (EnablePubsub (scriptLib noFaults) "floodsub" true true daemon0 10).d.pubsub = some 10 :=
  have h := EnablePubsub_floodsub_signed_strict (scriptLib noFaults) daemon0 10 11 10 rfl
  ⟨rfl, h.1, h.2.1⟩

/-! ## `NewDaemon` failures (C4) -/

/-- C4: when `libp2p.New` returns a host and `manet.Listen` fails, `NewDaemon`
makes exactly the calls `libp2p.New`, `manet.Listen`, `h.Close()` in that order
(so the host is closed once, before returning, and `go d.listen()` is never
executed) and returns no daemon and the bind error.  When `libp2p.New` itself
fails, `NewDaemon` returns no daemon and that error, having made no other call
(so `manet.Listen` is not attempted). -/
theorem NewDaemon_failure {T : Types} (L : Lib T) (ctx : T.Ctx) (maddr : T.Maddr)
    (opts : List T.HostOpt) (w : T.World) :
    (∀ (h : T.Host) (w1 : T.World) (e : T.Err) (w2 : T.World),
      L.libp2pNew ctx opts w = (.ok h, w1) → L.manetListen maddr w1 = (.error e, w2) →
        (NewDaemon L ctx maddr opts w).daemon = none ∧
        (NewDaemon L ctx maddr opts w).err = some (.lib e) ∧
        (NewDaemon L ctx maddr opts w).calls
          = [.libp2pNew ctx opts, .manetListen maddr, .hostClose h] ∧
        ((NewDaemon L ctx maddr opts w).calls.filter Call.isHostClose).length = 1 ∧
        (NewDaemon L ctx maddr opts w).calls.filter Call.isGoListen = [] ∧
        (NewDaemon L ctx maddr opts w).world = L.hostClose h w2) ∧
    (∀ (e : T.Err) (w1 : T.World),
      L.libp2pNew ctx opts w = (.error e, w1) →
        (NewDaemon L ctx maddr opts w).daemon = none ∧
        (NewDaemon L ctx maddr opts w).err = some (.lib e) ∧
        (NewDaemon L ctx maddr opts w).calls = [.libp2pNew ctx opts] ∧
        (NewDaemon L ctx maddr opts w).calls.filter Call.isManetListen = [] ∧
        (NewDaemon L ctx maddr opts w).world = w1) := by
  constructor
  · intro h w1 e w2 hh hl
    simp [NewDaemon, hh, hl, Call.isHostClose, Call.isGoListen]
  · intro e w1 hh
    simp [NewDaemon, hh, Call.isManetListen]

/-- A bind failure after host 0 was built, and a host construction failure. -/
theorem NewDaemon_failure_witness :
    ((NewDaemon (scriptLib ⟨false, true, false, false, false, false⟩) 7 8 [] 0).calls
        = [.libp2pNew 7 [], .manetListen 8, .hostClose 0] ∧
      (NewDaemon (scriptLib ⟨false, true, false, false, false, false⟩) 7 8 [] 0).err
        = some (.lib 1)) ∧
    ((NewDaemon (scriptLib ⟨true, false, false, false, false, false⟩) 7 8 [] 0).calls
        = [.libp2pNew 7 []] ∧
      (NewDaemon (scriptLib ⟨true, false, false, false, false, false⟩) 7 8 [] 0).err
        = some (.lib 0)) :=
  have hb := (NewDaemon_failure (scriptLib ⟨false, true, false, false, false, false⟩)
    7 8 [] 0).1 0 1 1 2 rfl rfl
  have hh := (NewDaemon_failure (scriptLib ⟨true, false, false, false, false, false⟩)
    7 8 [] 0).2 0 1 rfl
  ⟨⟨hb.2.2.1, hb.2.1⟩, ⟨hh.2.2.1, hh.2.1⟩⟩

/-! ## Failing enable calls (C5) -/

/-- C5: if `EnableDHT` returns an error, the daemon after the call is the daemon
before it, field by field (host, DHT, pubsub, handlers, and context and
listener too); the same holds for `EnablePubsub`, whether the error is the
unknown-router error or a constructor failure. -/
theorem enable_failure_changes_nothing {T : Types} (L : Lib T) (d : Daemon T) (w : T.World) :
    (∀ client : Bool, (EnableDHT L client d w).err ≠ none →
      (EnableDHT L client d w).d = d) ∧
    (∀ (router : String) (sign strict : Bool),
      (EnablePubsub L router sign strict d w).err ≠ none →
        (EnablePubsub L router sign strict d w).d = d) := by
  constructor
  · intro client
    unfold EnableDHT
    rcases hres : L.dhtNew d.ctx d.host (dhtOpts client) w with ⟨r, w1⟩
    cases r <;> simp [hres]
  · intro router sign strict
    unfold EnablePubsub
    by_cases hf : router = "floodsub"
    · rcases hres : L.newFloodSub d.ctx d.host (pubsubOpts sign strict) w with ⟨r, w1⟩
      cases r <;> simp [hf, hres]
    · by_cases hg : router = "gossipsub"
      · rcases hres : L.newGossipSub d.ctx d.host (pubsubOpts sign strict) w with ⟨r, w1⟩
        cases r <;> simp [hg, hres]
      · simp [hf, hg]

/-- A failing DHT constructor, a failing gossip constructor and an unknown router,
each on a daemon with both subsystems set. -/
theorem enable_failure_changes_nothing_witness :
    (EnableDHT (scriptLib ⟨false, false, true, false, false, false⟩) true daemonSet 10).d
        = daemonSet ∧
    (EnablePubsub (scriptLib ⟨false, false, false, false, true, false⟩) "gossipsub" true false
        daemonSet 10).d = daemonSet ∧
    (EnablePubsub (scriptLib noFaults) "meshsub" true false daemonSet 10).d = daemonSet :=
  ⟨(enable_failure_changes_nothing (scriptLib ⟨false, false, true, false, false, false⟩)
      daemonSet 10).1 true (by intro h; cases h),
    (enable_failure_changes_nothing (scriptLib ⟨false, false, false, false, true, false⟩)
      daemonSet 10).2 "gossipsub" true false (by intro h; cases h),
    (enable_failure_changes_nothing (scriptLib noFaults)
      daemonSet 10).2 "meshsub" true false (by intro h; cases h)⟩

/-! ## A successful `EnableDHT` (C7) -/

/-- C7: when `dht.New`, called on the daemon's context and its host as it was
before the call, with the option list that holds `dhtopts.Client(true)` exactly
when `client` is true, returns an engine, `EnableDHT` returns no error, stores
that engine in `dht`, and replaces `host` by what `rhost.Wrap` returns for the
previous host and the new engine; these are its only two library calls, and
the other fields stay as they were. -/
theorem EnableDHT_success {T : Types} (L : Lib T) (client : Bool) (d : Daemon T)
    (w w1 : T.World) (e : T.DHT)
    (h : L.dhtNew d.ctx d.host (if client then [DhtOption.Client true] else []) w
      = (.ok e, w1)) :
    (EnableDHT L client d w).err = none ∧
    (EnableDHT L client d w).d.dht = some e ∧
    (EnableDHT L client d w).d.host = (L.rhostWrap d.host e w1).1 ∧
    (EnableDHT L client d w).calls
        = [.dhtNew d.ctx d.host (if client then [DhtOption.Client true] else []),
           .rhostWrap d.host e] ∧
    (DhtOption.Client true ∈ dhtOpts client ↔ client = true) ∧
    (EnableDHT L client d w).d.pubsub = d.pubsub ∧
    (EnableDHT L client d w).d.handlers = d.handlers ∧
    (EnableDHT L client d w).world = (L.rhostWrap d.host e w1).2 := by
  cases client
  · have h0 : L.dhtNew d.ctx d.host [] w = (.ok e, w1) := h
    simp [EnableDHT, dhtOpts, h0]
  · have h1 : L.dhtNew d.ctx d.host [DhtOption.Client true] w = (.ok e, w1) := h
    simp [EnableDHT, dhtOpts, h1]

/-- A client-mode enable on the scripted library: engine 10, wrapper 11. -/
theorem EnableDHT_success_witness :
    (scriptLib noFaults).dhtNew daemon0.ctx daemon0.host
      (if true then [DhtOption.Client true] else []) 10 = (.ok 10, 11) ∧
    (EnableDHT (scriptLib noFaults) true daemon0 10).err = none ∧
    (EnableDHT (scriptLib noFaults) true daemon0 10).d.dht = some 10 ∧
    (EnableDHT (scriptLib noFaults) true daemon0 10).d.host = 11 ∧
    (EnableDHT (scriptLib noFaults) true daemon0 10).calls
        = [.dhtNew 0 1 [DhtOption.Client true], .rhostWrap 1 10] :=
  have h := EnableDHT_success (scriptLib noFaults) true daemon0 10 11 10 rfl
  ⟨rfl, h.1, h.2.1, h.2.2.1, h.2.2.2.1⟩

/-! ## What the enable calls pass on and leave alone -/

/-- With router `"floodsub"` the only library call is the flood constructor, on
the daemon's context and host, with the option list. -/
theorem EnablePubsub_floodsub_calls {T : Types} (L : Lib T) (sign strict : Bool)
    (d : Daemon T) (w : T.World) :
    (EnablePubsub L "floodsub" sign strict d w).calls
      = [.newFloodSub d.ctx d.host (pubsubOpts sign strict)] := by
  unfold EnablePubsub
  rcases hres : L.newFloodSub d.ctx d.host (pubsubOpts sign strict) w with ⟨r, w1⟩
  cases r <;> simp [hres]

/-- With router `"gossipsub"` the only library call is the gossip constructor, on
the daemon's context and host, with the option list. -/
theorem EnablePubsub_gossipsub_calls {T : Types} (L : Lib T) (sign strict : Bool)
    (d : Daemon T) (w : T.World) :
    (EnablePubsub L "gossipsub" sign strict d w).calls
      = [.newGossipSub d.ctx d.host (pubsubOpts sign strict)] := by
  unfold EnablePubsub
  rcases hres : L.newGossipSub d.ctx d.host (pubsubOpts sign strict) w with ⟨r, w1⟩
  cases r <;> simp [hres]

/-- The method `EnableDHT` never assigns `pubsub`, `ctx`, `listener` or `handlers`. -/
theorem EnableDHT_frame {T : Types} (L : Lib T) (client : Bool) (d : Daemon T)
    (w : T.World) :
    (EnableDHT L client d w).d.pubsub = d.pubsub ∧
    (EnableDHT L client d w).d.ctx = d.ctx ∧
    (EnableDHT L client d w).d.listener = d.listener ∧
    (EnableDHT L client d w).d.handlers = d.handlers := by
  unfold EnableDHT
  rcases hres : L.dhtNew d.ctx d.host (dhtOpts client) w with ⟨r, w1⟩
  cases r <;> simp [hres]

/-- The method `EnablePubsub` never assigns `host`, `ctx`, `dht`, `listener` or `handlers`. -/
theorem EnablePubsub_frame {T : Types} (L : Lib T) (router : String) (sign strict : Bool)
    (d : Daemon T) (w : T.World) :
    (EnablePubsub L router sign strict d w).d.host = d.host ∧
    (EnablePubsub L router sign strict d w).d.ctx = d.ctx ∧
    (EnablePubsub L router sign strict d w).d.dht = d.dht ∧
    (EnablePubsub L router sign strict d w).d.listener = d.listener ∧
    (EnablePubsub L router sign strict d w).d.handlers = d.handlers := by
  unfold EnablePubsub
  by_cases hf : router = "floodsub"
  · rcases hres : L.newFloodSub d.ctx d.host (pubsubOpts sign strict) w with ⟨r, w1⟩
    cases r <;> simp [hf, hres]
  · by_cases hg : router = "gossipsub"
    · rcases hres : L.newGossipSub d.ctx d.host (pubsubOpts sign strict) w with ⟨r, w1⟩
      cases r <;> simp [hg, hres]
    · simp [hf, hg]

/-! ## The pubsub options (C10) -/

/-- The option list, case by case. -/
theorem pubsubOpts_eq (sign strict : Bool) :
    pubsubOpts sign strict
      = (if sign then
          (if strict then
            [.WithMessageSigning true, .WithStrictSignatureVerification true]
          else [.WithMessageSigning true])
        else []) := by
  cases sign <;> cases strict <;> rfl

/-- With router `"floodsub"` the whole result is read off what `ps.NewFloodSub`
returns when applied to the daemon's context and host, the option list and the
world before the call. -/
theorem EnablePubsub_floodsub_result {T : Types} (L : Lib T) (sign strict : Bool)
    (d : Daemon T) (w : T.World) :
    (EnablePubsub L "floodsub" sign strict d w).world
      = (L.newFloodSub d.ctx d.host (pubsubOpts sign strict) w).2 ∧
    (EnablePubsub L "floodsub" sign strict d w).err
      = (match (L.newFloodSub d.ctx d.host (pubsubOpts sign strict) w).1 with
          | .ok _ => none
          | .error e => some (.lib e)) ∧
    (EnablePubsub L "floodsub" sign strict d w).d.pubsub
      = (match (L.newFloodSub d.ctx d.host (pubsubOpts sign strict) w).1 with
          | .ok p => some p
          | .error _ => d.pubsub) := by
  unfold EnablePubsub
  rcases hres : L.newFloodSub d.ctx d.host (pubsubOpts sign strict) w with ⟨r, w1⟩
  cases r <;> simp [hres]

/-- With router `"gossipsub"` the whole result is read off what `ps.NewGossipSub`
returns when applied to the daemon's context and host, the option list and the
world before the call. -/
theorem EnablePubsub_gossipsub_result {T : Types} (L : Lib T) (sign strict : Bool)
    (d : Daemon T) (w : T.World) :
    (EnablePubsub L "gossipsub" sign strict d w).world
      = (L.newGossipSub d.ctx d.host (pubsubOpts sign strict) w).2 ∧
    (EnablePubsub L "gossipsub" sign strict d w).err
      = (match (L.newGossipSub d.ctx d.host (pubsubOpts sign strict) w).1 with
          | .ok _ => none
          | .error e => some (.lib e)) ∧
    (EnablePubsub L "gossipsub" sign strict d w).d.pubsub
      = (match (L.newGossipSub d.ctx d.host (pubsubOpts sign strict) w).1 with
          | .ok p => some p
          | .error _ => d.pubsub) := by
  unfold EnablePubsub
  rcases hres : L.newGossipSub d.ctx d.host (pubsubOpts sign strict) w with ⟨r, w1⟩
  cases r <;> simp [hres]

/-- C10: with `sign = false` the value of `strict` changes nothing: for every
router the whole result of `EnablePubsub router false true` equals that of
`EnablePubsub router false false`, and the option list is empty in both; with
`sign = true` the list is `[WithMessageSigning(true)]` when `strict` is false
and `[WithMessageSigning(true), WithStrictSignatureVerification(true)]` when it
is true; and the list is what each constructor receives: for both routers and
all `sign`, `strict`, the world after the call, the returned error and the
stored engine are those of the constructor applied to the daemon's context and
host, that very list (empty without `sign`) and the world before the call. -/
theorem pubsub_options_depend_on_strict_only_when_signing {T : Types} (L : Lib T)
    (router : String) (d : Daemon T) (w : T.World) :
    EnablePubsub L router false true d w = EnablePubsub L router false false d w ∧
    pubsubOpts false true = [] ∧
    pubsubOpts false false = [] ∧
    pubsubOpts true false = [.WithMessageSigning true] ∧
    pubsubOpts true true
        = [.WithMessageSigning true, .WithStrictSignatureVerification true] ∧
    (∀ sign strict : Bool, (EnablePubsub L "floodsub" sign strict d w).calls
        = [.newFloodSub d.ctx d.host (pubsubOpts sign strict)]) ∧
    (∀ sign strict : Bool, (EnablePubsub L "gossipsub" sign strict d w).calls
        = [.newGossipSub d.ctx d.host (pubsubOpts sign strict)]) ∧
    (∀ sign strict : Bool,
      (EnablePubsub L "floodsub" sign strict d w).world
        = (L.newFloodSub d.ctx d.host
            (if sign then
              (if strict then
                [.WithMessageSigning true, .WithStrictSignatureVerification true]
              else [.WithMessageSigning true])
            else []) w).2 ∧
      (EnablePubsub L "floodsub" sign strict d w).err
        = (match (L.newFloodSub d.ctx d.host
            (if sign then
              (if strict then
                [.WithMessageSigning true, .WithStrictSignatureVerification true]
              else [.WithMessageSigning true])
            else []) w).1 with
            | .ok _ => none
            | .error e => some (.lib e)) ∧
      (EnablePubsub L "floodsub" sign strict d w).d.pubsub
        = (match (L.newFloodSub d.ctx d.host
            (if sign then
              (if strict then
                [.WithMessageSigning true, .WithStrictSignatureVerification true]
              else [.WithMessageSigning true])
            else []) w).1 with
            | .ok p => some p
            | .error _ => d.pubsub)) ∧
    (∀ sign strict : Bool,
      (EnablePubsub L "gossipsub" sign strict d w).world
        = (L.newGossipSub d.ctx d.host
            (if sign then
              (if strict then
                [.WithMessageSigning true, .WithStrictSignatureVerification true]
              else [.WithMessageSigning true])
            else []) w).2 ∧
      (EnablePubsub L "gossipsub" sign strict d w).err
        = (match (L.newGossipSub d.ctx d.host
            (if sign then
              (if strict then
                [.WithMessageSigning true, .WithStrictSignatureVerification true]
              else [.WithMessageSigning true])
            else []) w).1 with
            | .ok _ => none
            | .error e => some (.lib e)) ∧
      (EnablePubsub L "gossipsub" sign strict d w).d.pubsub
        = (match (L.newGossipSub d.ctx d.host
            (if sign then
              (if strict then
                [.WithMessageSigning true, .WithStrictSignatureVerification true]
              else [.WithMessageSigning true])
            else []) w).1 with
            | .ok p => some p
            | .error _ => d.pubsub)) := by
  refine ⟨rfl, rfl, rfl, rfl, rfl,
    fun sign strict => EnablePubsub_floodsub_calls L sign strict d w,
    fun sign strict => EnablePubsub_gossipsub_calls L sign strict d w, ?_, ?_⟩
  · intro sign strict
    have h := EnablePubsub_floodsub_result L sign strict d w
    rw [pubsubOpts_eq] at h
    exact h
  · intro sign strict
    have h := EnablePubsub_gossipsub_result L sign strict d w
    rw [pubsubOpts_eq] at h
    exact h

/-- On the library that only builds signed engines: without `sign` both routers
fail with the constructor error 10 whatever `strict` is and nothing is stored;
with `sign` alone the flood constructor receives one option and stores engine
11; with `sign` and `strict` it receives two and stores engine 12 (gossip
alike). -/
theorem pubsub_options_depend_on_strict_only_when_signing_witness :
    (EnablePubsub signedOnlyLib "floodsub" false true daemon0 10).err = some (.lib 10) ∧
    (EnablePubsub signedOnlyLib "floodsub" false true daemon0 10).d.pubsub = none ∧
    (EnablePubsub signedOnlyLib "floodsub" true false daemon0 10).err = none ∧
    (EnablePubsub signedOnlyLib "floodsub" true false daemon0 10).d.pubsub = some 11 ∧
    (EnablePubsub signedOnlyLib "floodsub" true true daemon0 10).d.pubsub = some 12 ∧
    (EnablePubsub signedOnlyLib "floodsub" true true daemon0 10).world = 11 ∧
    (EnablePubsub signedOnlyLib "gossipsub" true true daemon0 10).d.pubsub = some 12 ∧
    (EnablePubsub signedOnlyLib "gossipsub" false false daemon0 10).err = some (.lib 10) :=
  have hf := (pubsub_options_depend_on_strict_only_when_signing signedOnlyLib "floodsub"
    daemon0 10).2.2.2.2.2.2.2.1
  have hg := (pubsub_options_depend_on_strict_only_when_signing signedOnlyLib "floodsub"
    daemon0 10).2.2.2.2.2.2.2.2
  ⟨(hf false true).2.1, (hf false true).2.2, (hf true false).2.1, (hf true false).2.2,
    (hf true true).2.2, (hf true true).1, (hg true true).2.2, (hg false false).2.1⟩

/-! ## The acceptor loop (C3, C9) -/

/-- The calls of one loop iteration, spelled out: the error log is the only
conditional call; the handler is spawned on whatever connection `Accept`
returned. -/
theorem listenBody_calls {T : Types} (L : Lib T) (d : Daemon T) (w : T.World) :
    (listenBody L d w).2
      = [.accept d.listener] ++
        (match (L.accept d.listener w).1.2 with
          | some e => [.logErrorf ("error accepting connection: " ++ L.errError e)]
          | none => []) ++
        [.logDebug "incoming connection", .goHandleConn (L.accept d.listener w).1.1] := by
  unfold listenBody
  dsimp only
  cases (L.accept d.listener w).1.2 <;> rfl

/-- The world one loop iteration leaves: the one `Accept` left, passed through
`log.Errorf` when there was an error, then through `log.Debug` and the spawn of
the handler on whatever connection `Accept` returned. -/
theorem listenBody_world {T : Types} (L : Lib T) (d : Daemon T) (w : T.World) :
    (listenBody L d w).1
      = L.goHandleConn (L.accept d.listener w).1.1
          (L.logDebug "incoming connection"
            (match (L.accept d.listener w).1.2 with
              | some e => L.logErrorf ("error accepting connection: " ++ L.errError e)
                  (L.accept d.listener w).2
              | none => (L.accept d.listener w).2)) := by
  unfold listenBody
  dsimp only
  cases (L.accept d.listener w).1.2 <;> rfl

/-- Every iteration makes exactly one `Accept` call. -/
theorem listenBody_accept_count {T : Types} (L : Lib T) (d : Daemon T) (w : T.World) :
    ((listenBody L d w).2.filter Call.isAccept).length = 1 := by
  rw [listenBody_calls]
  cases (L.accept d.listener w).1.2 <;> simp [Call.isAccept]

/-- Running `n + m` iterations is running `n` and then `m` more from the world
the first `n` left. -/
theorem listen_add {T : Types} (L : Lib T) (d : Daemon T) (n m : Nat) (w : T.World) :
    listen L d (n + m) w
      = ((listen L d m (listen L d n w).1).1,
         (listen L d n w).2 ++ (listen L d m (listen L d n w).1).2) := by
  induction n generalizing w with
  | zero => simp [listen]
  | succ k ih =>
      have hk : k + 1 + m = (k + m) + 1 := by omega
      rw [hk]
      simp [listen, ih]

/-- C3 fails on the code: when `Accept` returns no connection and an error
(here error 7), the iteration logs the error and then still executes
`go d.handleConn(c)`, with the nil connection. -/
theorem listenBody_spawns_handler_on_accept_error :
    ((scriptLib ⟨false, false, false, false, false, true⟩).accept daemon0.listener 7).1
        = (none, some 7) ∧
    (listenBody (scriptLib ⟨false, false, false, false, false, true⟩) daemon0 7).2
        = [.accept 2, .logErrorf "error accepting connection: E7",
           .logDebug "incoming connection", .goHandleConn none] ∧
    ((listenBody (scriptLib ⟨false, false, false, false, false, true⟩) daemon0 7).2.filter
        Call.isGoHandleConn).length = 1 :=
  ⟨rfl, rfl, rfl⟩

/-- C9: if, after any `n` iterations, `Accept` returns an error, the iteration
logs `"error accepting connection: "` followed by the error message and the
loop goes on: the calls of `n + 1 + m` iterations are those of the first `n`,
then those of the failing iteration, then those of `m` further iterations run
from the world the failing iteration left; each further iteration starts with
an `Accept` call, and whatever `Accept` returns, `k` iterations make exactly
`k` `Accept` calls for every `k` (nothing in the loop stops it).  The world the
failing iteration leaves is the one `Accept` left, passed through `log.Errorf`
with that message, then `log.Debug`, then the handler spawn; the `m` further
iterations start from it and the world after all `n + 1 + m` is theirs. -/
theorem listen_continues_after_accept_error {T : Types} (L : Lib T) (d : Daemon T)
    (n m : Nat) (w : T.World) (e : T.Err)
    (h : (L.accept d.listener (listen L d n w).1).1.2 = some e) :
    (listen L d (n + 1 + m) w).2
      = (listen L d n w).2 ++
        [.accept d.listener,
         .logErrorf ("error accepting connection: " ++ L.errError e),
         .logDebug "incoming connection",
         .goHandleConn (L.accept d.listener (listen L d n w).1).1.1] ++
        (listen L d m (listen L d (n + 1) w).1).2 ∧
    (∀ w1 : T.World, (listen L d (m + 1) w1).2.head? = some (.accept d.listener)) ∧
    (∀ (k : Nat) (w0 : T.World),
      ((listen L d k w0).2.filter Call.isAccept).length = k) ∧
    (listen L d (n + 1) w).1
      = L.goHandleConn (L.accept d.listener (listen L d n w).1).1.1
          (L.logDebug "incoming connection"
            (L.logErrorf ("error accepting connection: " ++ L.errError e)
              (L.accept d.listener (listen L d n w).1).2)) ∧
    (listen L d (n + 1 + m) w).1
      = (listen L d m
          (L.goHandleConn (L.accept d.listener (listen L d n w).1).1.1
            (L.logDebug "incoming connection"
              (L.logErrorf ("error accepting connection: " ++ L.errError e)
                (L.accept d.listener (listen L d n w).1).2)))).1 := by
  have hw : (listen L d (n + 1) w).1
      = L.goHandleConn (L.accept d.listener (listen L d n w).1).1.1
          (L.logDebug "incoming connection"
            (L.logErrorf ("error accepting connection: " ++ L.errError e)
              (L.accept d.listener (listen L d n w).1).2)) := by
    have hb := listenBody_world L d (listen L d n w).1
    rw [h] at hb
    rw [listen_add L d n 1 w]
    simp only [listen]
    exact hb
  refine ⟨?_, ?_, ?_, hw, ?_⟩
  · have hb := listenBody_calls L d (listen L d n w).1
    rw [h] at hb
    rw [listen_add L d (n + 1) m w, listen_add L d n 1 w]
    simp only [listen, List.append_nil]
    rw [hb]
    simp
  · intro w1
    simp [listen, listenBody_calls]
  · intro k
    induction k with
    | zero => intro w0; simp [listen]
    | succ j ih =>
        intro w0
        simp only [listen, List.filter_append, List.length_append]
        rw [listenBody_accept_count, ih]
        omega
  · rw [listen_add L d (n + 1) m w, hw]

/-- A listener whose every `Accept` fails and whose calls each mark the world:
three iterations from world 7, the second one singled out.  The first leaves
7 + 1 + 100 + 10 + 1000 = 1118, so the second fails with error 1118 and leaves
2229, from which the third runs and leaves 3340. -/
theorem listen_continues_after_accept_error_witness :
    (failingAcceptLib.accept daemon0.listener (listen failingAcceptLib daemon0 1 7).1).1.2
        = some 1118 ∧
    (listen failingAcceptLib daemon0 (1 + 1 + 1) 7).2
      = (listen failingAcceptLib daemon0 1 7).2 ++
        [.accept 2, .logErrorf "error accepting connection: E1118",
         .logDebug "incoming connection", .goHandleConn none] ++
        (listen failingAcceptLib daemon0 1 2229).2 ∧
    (listen failingAcceptLib daemon0 (1 + 1) 7).1 = 2229 ∧
    (listen failingAcceptLib daemon0 (1 + 1 + 1) 7).1 = 3340 :=
  have h := listen_continues_after_accept_error failingAcceptLib daemon0 1 1 7 1118 rfl
  ⟨rfl, h.1, h.2.2.2.1, h.2.2.2.2⟩

/-! ## Repeated enable calls (C6) -/

/-- The calls of `EnableDHT`: always the constructor, then the wrapper when the
constructor succeeded. -/
theorem EnableDHT_call_counts {T : Types} (L : Lib T) (client : Bool) (d : Daemon T)
    (w : T.World) :
    ((EnableDHT L client d w).calls.filter Call.isDhtNew).length = 1 ∧
    ((EnableDHT L client d w).calls.filter Call.isPubsubNew).length = 0 := by
  unfold EnableDHT
  rcases hres : L.dhtNew d.ctx d.host (dhtOpts client) w with ⟨r, w1⟩
  cases r <;> simp [hres, Call.isDhtNew, Call.isPubsubNew]

/-- The calls of `EnablePubsub`: one pubsub constructor for the two router names
of the `switch`, nothing otherwise. -/
theorem EnablePubsub_call_counts {T : Types} (L : Lib T) (router : String)
    (sign strict : Bool) (d : Daemon T) (w : T.World) :
    ((EnablePubsub L router sign strict d w).calls.filter Call.isDhtNew).length = 0 ∧
    ((EnablePubsub L router sign strict d w).calls.filter Call.isPubsubNew).length
      = if router = "floodsub" ∨ router = "gossipsub" then 1 else 0 := by
  unfold EnablePubsub
  by_cases hf : router = "floodsub"
  · rcases hres : L.newFloodSub d.ctx d.host (pubsubOpts sign strict) w with ⟨r, w1⟩
    cases r <;> simp [hf, hres, Call.isDhtNew, Call.isPubsubNew]
  · by_cases hg : router = "gossipsub"
    · rcases hres : L.newGossipSub d.ctx d.host (pubsubOpts sign strict) w with ⟨r, w1⟩
      cases r <;> simp [hg, hres, Call.isDhtNew, Call.isPubsubNew]
    · simp [hf, hg]

/-- Constructor calls of one command. -/
theorem runCmd_call_counts {T : Types} (L : Lib T) (c : Cmd) (d : Daemon T) (w : T.World) :
    ((runCmd L c d w).calls.filter Call.isDhtNew).length = ([c].filter Cmd.isDHT).length ∧
    ((runCmd L c d w).calls.filter Call.isPubsubNew).length
      = ([c].filter Cmd.isKnownPubsub).length := by
  cases c with
  | enableDHT client =>
      have h := EnableDHT_call_counts L client d w
      simp [runCmd, Cmd.isDHT, Cmd.isKnownPubsub, h.1, h.2]
  | enablePubsub router sign strict =>
      have h := EnablePubsub_call_counts L router sign strict d w
      simp only [runCmd, h.1, h.2]
      by_cases hf : router = "floodsub"
      · simp [hf, Cmd.isDHT, Cmd.isKnownPubsub]
      · by_cases hg : router = "gossipsub"
        · simp [hg, Cmd.isDHT, Cmd.isKnownPubsub]
        · simp [hf, hg, Cmd.isDHT, Cmd.isKnownPubsub]

/-- Constructor calls of a sequence of commands. -/
theorem runCmds_call_counts {T : Types} (L : Lib T) (cs : List Cmd) (d : Daemon T)
    (w : T.World) :
    ((runCmds L cs d w).calls.filter Call.isDhtNew).length = (cs.filter Cmd.isDHT).length ∧
    ((runCmds L cs d w).calls.filter Call.isPubsubNew).length
      = (cs.filter Cmd.isKnownPubsub).length := by
  induction cs generalizing d w with
  | nil => simp [runCmds]
  | cons c cs ih =>
      have h1 := runCmd_call_counts L c d w
      have h2 := ih (runCmd L c d w).d (runCmd L c d w).world
      have hc : ∀ (f : Cmd → Bool), ((c :: cs).filter f).length
          = ([c].filter f).length + (cs.filter f).length := by
        intro f
        rw [← List.length_append, ← List.filter_append]
        rfl
      simp only [runCmds, List.filter_append, List.length_append, h1.1, h1.2, h2.1, h2.2, hc]
      exact ⟨trivial, trivial⟩

/-- C6 fails on the code: on a daemon whose DHT (3) and pubsub (4) are already
set, a further `EnableDHT` whose constructor succeeds calls `dht.New` and stores
the new engine 10 in place of 3, and a further `EnablePubsub` calls the gossip
constructor and stores engine 10 in place of 4; and two `EnableDHT` calls in a
row on a fresh daemon construct two engines. -/
theorem enable_again_constructs_and_replaces :
    daemonSet.dht = some 3 ∧
    (EnableDHT (scriptLib noFaults) false daemonSet 10).err = none ∧
    (EnableDHT (scriptLib noFaults) false daemonSet 10).calls
        = [.dhtNew 0 1 [], .rhostWrap 1 10] ∧
    (EnableDHT (scriptLib noFaults) false daemonSet 10).d.dht = some 10 ∧
    daemonSet.pubsub = some 4 ∧
    (EnablePubsub (scriptLib noFaults) "gossipsub" false false daemonSet 10).err = none ∧
    (EnablePubsub (scriptLib noFaults) "gossipsub" false false daemonSet 10).calls
        = [.newGossipSub 0 1 []] ∧
    (EnablePubsub (scriptLib noFaults) "gossipsub" false false daemonSet 10).d.pubsub
        = some 10 ∧
    (runCmds (scriptLib noFaults) [.enableDHT false, .enableDHT false] daemon0 10).calls
        = [.dhtNew 0 1 [], .rhostWrap 1 10, .dhtNew 0 11 [], .rhostWrap 11 12] ∧
    (runCmds (scriptLib noFaults) [.enableDHT false] daemon0 10).d.dht = some 10 ∧
    (runCmds (scriptLib noFaults) [.enableDHT false, .enableDHT false] daemon0 10).d.dht
        = some 12 :=
  ⟨rfl, rfl, rfl, rfl, rfl, rfl, rfl, rfl, rfl, rfl, rfl⟩

/-- C6, amended: the daemon has one `dht` and one `pubsub` field, so it stores at
most one instance of each at a time, but every enable call constructs: in every
sequence of enable calls the number of `dht.New` calls is the number of
`EnableDHT` calls and the number of pubsub constructor calls is the number of
`EnablePubsub` calls with router `"floodsub"` or `"gossipsub"`; and whenever the
constructor returns an engine, the call stores that engine, whatever the field
held before. -/
theorem enable_constructs_every_time {T : Types} (L : Lib T) :
    (∀ (cs : List Cmd) (d : Daemon T) (w : T.World),
      ((runCmds L cs d w).calls.filter Call.isDhtNew).length = (cs.filter Cmd.isDHT).length ∧
      ((runCmds L cs d w).calls.filter Call.isPubsubNew).length
        = (cs.filter Cmd.isKnownPubsub).length) ∧
    (∀ (client : Bool) (d : Daemon T) (w w1 : T.World) (e : T.DHT),
      L.dhtNew d.ctx d.host (dhtOpts client) w = (.ok e, w1) →
        (EnableDHT L client d w).d.dht = some e) ∧
    (∀ (sign strict : Bool) (d : Daemon T) (w w1 : T.World) (p : T.PubSub),
      L.newFloodSub d.ctx d.host (pubsubOpts sign strict) w = (.ok p, w1) →
        (EnablePubsub L "floodsub" sign strict d w).d.pubsub = some p) ∧
    (∀ (sign strict : Bool) (d : Daemon T) (w w1 : T.World) (p : T.PubSub),
      L.newGossipSub d.ctx d.host (pubsubOpts sign strict) w = (.ok p, w1) →
        (EnablePubsub L "gossipsub" sign strict d w).d.pubsub = some p) := by
  refine ⟨runCmds_call_counts L, ?_, ?_, ?_⟩
  · intro client d w w1 e h
    simp [EnableDHT, h]
  · intro sign strict d w w1 p h
    simp [EnablePubsub, h]
  · intro sign strict d w w1 p h
    simp [EnablePubsub, h]

/-- Enabling again on a daemon whose subsystems are set: the new engines are stored. -/
theorem enable_constructs_every_time_witness :
    (EnableDHT (scriptLib noFaults) true daemonSet 10).d.dht = some 10 ∧
    (EnablePubsub (scriptLib noFaults) "floodsub" true false daemonSet 10).d.pubsub
        = some 10 ∧
    (EnablePubsub (scriptLib noFaults) "gossipsub" true false daemonSet 10).d.pubsub
        = some 10 :=
  ⟨(enable_constructs_every_time (scriptLib noFaults)).2.1 true daemonSet 10 11 10 rfl,
    (enable_constructs_every_time (scriptLib noFaults)).2.2.1 true false daemonSet 10 11 10 rfl,
    (enable_constructs_every_time (scriptLib noFaults)).2.2.2 true false daemonSet 10 11 10 rfl⟩

/-! ## Which host a pubsub engine is built on (C8) -/

/-- C8: `EnablePubsub` hands its constructor the daemon's `host` field as it is
at the call.  If `EnableDHT` returned no error before, that field is the
wrapper `rhost.Wrap` returned for the earlier host and the new DHT engine, and
both constructors are called on it.  If `EnablePubsub` returns no error first,
the engine it stored came from a constructor called on the unwrapped host, and
a later `EnableDHT`, failing or not, calls no pubsub constructor and leaves the
stored engine as it is, while a successful one replaces `host` by the wrapper. -/
theorem pubsub_host_fixed_at_enable {T : Types} (L : Lib T) (d : Daemon T) (w : T.World) :
    (∀ client : Bool, (EnableDHT L client d w).err = none →
      ∃ (e : T.DHT) (w1 : T.World),
        L.dhtNew d.ctx d.host (dhtOpts client) w = (.ok e, w1) ∧
        (EnableDHT L client d w).d.host = (L.rhostWrap d.host e w1).1 ∧
        ∀ sign strict : Bool,
          (EnablePubsub L "floodsub" sign strict (EnableDHT L client d w).d
              (EnableDHT L client d w).world).calls
            = [.newFloodSub d.ctx (L.rhostWrap d.host e w1).1 (pubsubOpts sign strict)] ∧
          (EnablePubsub L "gossipsub" sign strict (EnableDHT L client d w).d
              (EnableDHT L client d w).world).calls
            = [.newGossipSub d.ctx (L.rhostWrap d.host e w1).1 (pubsubOpts sign strict)]) ∧
    (∀ (router : String) (sign strict : Bool),
      (EnablePubsub L router sign strict d w).err = none →
      ∃ p : T.PubSub,
        (EnablePubsub L router sign strict d w).d.pubsub = some p ∧
        (EnablePubsub L router sign strict d w).d.host = d.host ∧
        ((router = "floodsub" ∧
            (L.newFloodSub d.ctx d.host (pubsubOpts sign strict) w).1 = .ok p ∧
            (EnablePubsub L router sign strict d w).calls
              = [.newFloodSub d.ctx d.host (pubsubOpts sign strict)]) ∨
          (router = "gossipsub" ∧
            (L.newGossipSub d.ctx d.host (pubsubOpts sign strict) w).1 = .ok p ∧
            (EnablePubsub L router sign strict d w).calls
              = [.newGossipSub d.ctx d.host (pubsubOpts sign strict)])) ∧
        ∀ client : Bool,
          (EnableDHT L client (EnablePubsub L router sign strict d w).d
              (EnablePubsub L router sign strict d w).world).d.pubsub = some p ∧
          (EnableDHT L client (EnablePubsub L router sign strict d w).d
              (EnablePubsub L router sign strict d w).world).calls.filter Call.isPubsubNew
            = [] ∧
          ∀ (e : T.DHT) (w2 : T.World),
            L.dhtNew d.ctx d.host (dhtOpts client)
                (EnablePubsub L router sign strict d w).world = (.ok e, w2) →
              (EnableDHT L client (EnablePubsub L router sign strict d w).d
                (EnablePubsub L router sign strict d w).world).d.host
                = (L.rhostWrap d.host e w2).1) := by
  constructor
  · intro client herr
    rcases hres : L.dhtNew d.ctx d.host (dhtOpts client) w with ⟨r, w1⟩
    cases r with
    | error e0 => simp [EnableDHT, hres] at herr
    | ok e =>
        refine ⟨e, w1, rfl, ?_, ?_⟩
        · simp [EnableDHT, hres]
        · intro sign strict
          have hh : (EnableDHT L client d w).d.host = (L.rhostWrap d.host e w1).1 := by
            simp [EnableDHT, hres]
          have hc := (EnableDHT_frame L client d w).2.1
          rw [EnablePubsub_floodsub_calls, EnablePubsub_gossipsub_calls, hh, hc]
          exact ⟨rfl, rfl⟩
  · intro router sign strict herr
    have key : ∀ (p : T.PubSub) (r1 : Res T), r1 = EnablePubsub L router sign strict d w →
        r1.d.pubsub = some p →
        ∀ client : Bool,
          (EnableDHT L client r1.d r1.world).d.pubsub = some p ∧
          (EnableDHT L client r1.d r1.world).calls.filter Call.isPubsubNew = [] ∧
          ∀ (e : T.DHT) (w2 : T.World),
            L.dhtNew d.ctx d.host (dhtOpts client) r1.world = (.ok e, w2) →
              (EnableDHT L client r1.d r1.world).d.host = (L.rhostWrap d.host e w2).1 := by
      intro p r1 hr1 hp client
      have hfr := EnablePubsub_frame L router sign strict d w
      rw [← hr1] at hfr
      refine ⟨?_, ?_, ?_⟩
      · rw [(EnableDHT_frame L client r1.d r1.world).1, hp]
      · exact List.length_eq_zero.mp (EnableDHT_call_counts L client r1.d r1.world).2
      · intro e w2 h
        rw [← hfr.1, ← hfr.2.1] at h
        rw [← hfr.1]
        simp [EnableDHT, h]
    by_cases hf : router = "floodsub"
    · rcases hres : L.newFloodSub d.ctx d.host (pubsubOpts sign strict) w with ⟨r, w1⟩
      cases r with
      | error e0 => simp [EnablePubsub, hf, hres] at herr
      | ok p =>
          have hp : (EnablePubsub L router sign strict d w).d.pubsub = some p := by
            simp [EnablePubsub, hf, hres]
          refine ⟨p, hp, (EnablePubsub_frame L router sign strict d w).1, Or.inl ⟨hf, rfl, ?_⟩,
            key p _ rfl hp⟩
          rw [hf]
          exact EnablePubsub_floodsub_calls L sign strict d w
    · by_cases hg : router = "gossipsub"
      · rcases hres : L.newGossipSub d.ctx d.host (pubsubOpts sign strict) w with ⟨r, w1⟩
        cases r with
        | error e0 => simp [EnablePubsub, hg, hres] at herr
        | ok p =>
            have hp : (EnablePubsub L router sign strict d w).d.pubsub = some p := by
              simp [EnablePubsub, hg, hres]
            refine ⟨p, hp, (EnablePubsub_frame L router sign strict d w).1,
              Or.inr ⟨hg, rfl, ?_⟩, key p _ rfl hp⟩
            rw [hg]
            exact EnablePubsub_gossipsub_calls L sign strict d w
      · simp [EnablePubsub, hf, hg] at herr

/-- Both orders on the scripted library: DHT first puts the flood engine on the
wrapper 11; pubsub first builds it on host 1, and the later `EnableDHT` keeps
engine 10 while the host becomes wrapper 12. -/
theorem pubsub_host_fixed_at_enable_witness :
    ((EnableDHT (scriptLib noFaults) false daemon0 10).err = none ∧
      (EnableDHT (scriptLib noFaults) false daemon0 10).d.host = 11 ∧
      (EnablePubsub (scriptLib noFaults) "floodsub" true true
          (EnableDHT (scriptLib noFaults) false daemon0 10).d
          (EnableDHT (scriptLib noFaults) false daemon0 10).world).calls
        = [.newFloodSub 0 11 (pubsubOpts true true)]) ∧
    ((EnablePubsub (scriptLib noFaults) "floodsub" true true daemon0 10).err = none ∧
      (EnablePubsub (scriptLib noFaults) "floodsub" true true daemon0 10).calls
        = [.newFloodSub 0 1 (pubsubOpts true true)] ∧
      (EnablePubsub (scriptLib noFaults) "floodsub" true true daemon0 10).d.pubsub = some 10 ∧
      (EnableDHT (scriptLib noFaults) false
          (EnablePubsub (scriptLib noFaults) "floodsub" true true daemon0 10).d
          (EnablePubsub (scriptLib noFaults) "floodsub" true true daemon0 10).world).d.pubsub
        = some 10 ∧
      (EnableDHT (scriptLib noFaults) false
          (EnablePubsub (scriptLib noFaults) "floodsub" true true daemon0 10).d
          (EnablePubsub (scriptLib noFaults) "floodsub" true true daemon0 10).world).d.host
        = 12) := by
  have h := pubsub_host_fixed_at_enable (scriptLib noFaults) daemon0 10
  obtain ⟨e, w1, he, hh, hc⟩ := h.1 false rfl
  have hew : e = 10 ∧ w1 = 11 := by
    have h2 : ((.ok 10, 11) : Except Nat Nat × Nat) = (.ok e, w1) := he
    simp only [Prod.mk.injEq, Except.ok.injEq] at h2
    exact ⟨h2.1.symm, h2.2.symm⟩
  obtain ⟨p, hp, _, _, hd⟩ := h.2 "floodsub" true true rfl
  have hp10 : p = 10 := by
    have h2 : (some 10 : Option Nat) = some p := hp
    exact (Option.some.inj h2).symm
  subst hp10
  refine ⟨⟨rfl, rfl, ?_⟩, ⟨rfl, rfl, hp, (hd false).1, rfl⟩⟩
  have := (hc true true).1
  rw [hew.1, hew.2] at this
  exact this

end P2pd
